import Mathlib

/-!
Shallow embedding of `cithia_chatbot.py`: the concurrent task orchestration
layer of a chat + image-generation assistant.  Pure decision logic is
translated into executable Lean functions; the backends (HTTP stream,
subprocess, microphone, audio mixer) are abstracted as outcome parameters,
and the audio controller's thread interleavings are given as an explicit
step relation.
-/

namespace Cithia

/-! ## Python string primitives used by the source -/

/-- The ASCII whitespace characters removed by Python `str.strip()`. -/
def isPySpace (c : Char) : Bool :=
  c = ' ' || c = '\t' || c = '\n' || c = '\r' || c = '\x0b' || c = '\x0c'

/-- `str.strip()` on a character list: drop whitespace from both ends. -/
def pyStripData (l : List Char) : List Char :=
  ((l.dropWhile isPySpace).reverse.dropWhile isPySpace).reverse

/-- Python `str.strip()`. -/
def pyStrip (s : String) : String := ⟨pyStripData s.data⟩

/-- Python `str.lower()` (ASCII case folding, as used on the inputs here). -/
def pyLower (s : String) : String := ⟨s.data.map Char.toLower⟩

/-- `startsWithData p l` models Python `str.startswith`: `p` is an initial
segment of `l`. -/
def startsWithData : List Char → List Char → Bool
  | [], _ => true
  | _ :: _, [] => false
  | p :: ps, c :: cs => p = c && startsWithData ps cs

/-- Python's `needle in hay` substring test on character lists. -/
def containsSubData (needle : List Char) : List Char → Bool
  | [] => needle.isEmpty
  | c :: rest => startsWithData needle (c :: rest) || containsSubData needle rest

/-- Python `startswith` on strings. -/
def pyStartsWith (p s : String) : Bool := startsWithData p.data s.data

/-- Python `in` substring test on strings. -/
def pyContains (needle s : String) : Bool := containsSubData needle.data s.data

/-- Decimal rendering of a natural number, as Python's `f"{timestamp}"`
formats a nonnegative int: most significant digit first, `0` for zero. -/
def natDecimal (n : Nat) : String :=
  if n = 0 then "0" else ⟨((Nat.digits 10 n).map Nat.digitChar).reverse⟩

/-! ## `query_ollama` (source lines 22-57)

The backend interaction is abstracted by `PostOutcome`: `requests.post`
either raises, or yields a response with a status code and a body iterated
line by line.  Each pushed value `Option String` models one
`token_queue.put`: `some tok` is a token, `none` is the terminal marker. -/

/-- One line of the streamed response body as consumed by the loop in
`query_ollama`: falsy (empty) lines are skipped; a line may decode as JSON
(yielding its `response` field, default empty) or make `json.loads` raise. -/
inductive StreamLine where
  | emptyLine
  | jsonLine (tok : String)
  | badLine
  deriving DecidableEq

/-- Outcome of the `requests.post` call in `query_ollama`. -/
inductive PostOutcome where
  | raised
  | response (status : Nat) (lines : List StreamLine)
  deriving DecidableEq

/-- What one `query_ollama` invocation did: the `prompt` field of the JSON
payload it posts, and the sequence of `token_queue.put` calls it makes. -/
structure QueryResult where
  payloadPrompt : String
  puts : List (Option String)
  deriving DecidableEq

/-- The `for line in response.iter_lines()` loop followed by the final
`token_queue.put(None)`; a `json.loads` failure raises into the `except`
block, which also puts `None`. -/
def streamPuts : List StreamLine → List (Option String)
  | [] => [none]
  | .emptyLine :: rest => streamPuts rest
  | .jsonLine tok :: rest => some tok :: streamPuts rest
  | .badLine :: _ => [none]

/-- `query_ollama(model_name, prompt, token_queue, memory)`: builds the full
prompt from the conversation history, posts it, and streams tokens into the
queue; any failure path puts the single terminal marker `None`. -/
def query_ollama (history prompt : String) (outcome : PostOutcome) : QueryResult :=
  let full_prompt := history ++ "\nUser: " ++ prompt ++ "\nBot:"
  match outcome with
  | .raised => { payloadPrompt := full_prompt, puts := [none] }
  | .response status lines =>
    if status ≠ 200 then { payloadPrompt := full_prompt, puts := [none] }
    else { payloadPrompt := full_prompt, puts := streamPuts lines }

/-- Number of terminal markers in a sequence of queue puts. -/
def terminalCount (l : List (Option String)) : Nat := l.countP fun o => o.isNone

/-! ## `run_diffusionkit` (source lines 61-95) -/

/-- Outcome of the `subprocess.run` call: it either raises, or completes
with a return code and captured standard error text. -/
inductive RunOutcome where
  | raised (msg : String)
  | completed (returncode : Int) (stderrText : String)
  deriving DecidableEq

/-- The unique output filename synthesized from `int(time.time())`. -/
def output_filename (timestamp : Nat) : String :=
  "generated_image_" ++ natDecimal timestamp ++ ".png"

/-- `os.path.join(os.getcwd(), output_filename)`. -/
def output_path (cwd : String) (timestamp : Nat) : String :=
  cwd ++ "/" ++ output_filename timestamp

/-- The queue pushes made by one `run_diffusionkit` invocation:
`status_puts` models `status_queue.put`, `image_puts` models
`image_queue.put` (`none` is Python `None`). -/
structure DiffusionPuts where
  status_puts : List String
  image_puts : List (Option String)
  deriving DecidableEq

/-- `run_diffusionkit(prompt, image_queue, status_queue)`: runs the
subprocess and pushes one status and one result. -/
def run_diffusionkit (cwd : String) (timestamp : Nat) (o : RunOutcome) : DiffusionPuts :=
  match o with
  | .raised msg =>
    { status_puts := ["Exception: " ++ msg], image_puts := [none] }
  | .completed code err =>
    if code ≠ 0 then
      { status_puts := ["Error: " ++ pyStrip err], image_puts := [none] }
    else
      { status_puts := ["Image generated successfully!"],
        image_puts := [some (output_path cwd timestamp)] }

/-- One `run_diffusionkit` invocation, identified by its call and the
integral second `int(time.time())` it observed. -/
structure GenCall where
  callId : Nat
  observedTime : Nat
  deriving DecidableEq

/-- The output path a given invocation synthesizes. -/
def genCallPath (cwd : String) (inv : GenCall) : String :=
  output_path cwd inv.observedTime

/-! ## `recognize_speech` (source lines 114-139)

The microphone/decoder loop is abstracted as the sequence of events the
decoder produces: `interim` is `AcceptWaveform` returning false (a partial
result), `utterance t` is an accepted waveform whose JSON result has text
`t`, and `failure` is an exception anywhere in the capture loop. -/

/-- One event observed by the `recognize_speech` loop. -/
inductive SpeechEvent where
  | interim
  | utterance (text : String)
  | failure
  deriving DecidableEq

/-- `recognize_speech(model)`: returns the text of the first accepted
waveform, loops on partial results (`none` means the loop is still
blocked waiting for more audio), returns `""` on any exception. -/
def recognize_speech : List SpeechEvent → Option String
  | [] => none
  | .interim :: rest => recognize_speech rest
  | .utterance t :: _ => some t
  | .failure :: _ => some ""

/-- Modelled from the spec (section 4.3), for comparison with the code:
return at the first end-of-utterance with non-empty text, keep looping
otherwise, return `""` on any error. -/
def recognize_speech_specModel : List SpeechEvent → Option String
  | [] => none
  | .interim :: rest => recognize_speech_specModel rest
  | .utterance t :: rest =>
    if t = "" then recognize_speech_specModel rest else some t
  | .failure :: _ => some ""

/-! ## `ChatImageApp.send_chat` (source lines 252-317) and
`ChatImageApp.generate_image` (source lines 353-401)

The presentation-side state touched by `send_chat` is the LangChain memory
(`save_context` pairs, in call order), the chat display (appended lines)
and the enabled/disabled state of the prompt-submission controls
(`send_button`, `voice_button`, `tts_toggle`, which the code always
switches together).  Side effects that leave the GUI (spawning a
background task, text-to-speech) are returned as an action list. -/

/-- Side effects of a `send_chat` call that leave the presentation state. -/
inductive UIAction where
  | spawnChatTask (userInput : String)
  | spawnImageTask (prompt : String)
  | speakText (text : String)
  deriving DecidableEq

/-- Presentation-side state read and written by `send_chat`. -/
structure AppState where
  memory : List (String × String)
  chat_display : List String
  controlsEnabled : Bool
  deriving DecidableEq

/-- The canned tip offered right after starting an image generation. -/
def image_tip_message : String :=
  "Would you like some tips to refine your prompt for better image results?"

/-- The message for a bare `generate image:` with no prompt text. -/
def missing_prompt_message : String :=
  "Please provide a prompt after 'generate image:'."

/-- The canned prompt-improvement answer (source lines 284-286). -/
def improvement_message : String :=
  "Sure! To create a more detailed and vivid image, consider adding specifics such as colors, lighting, environment, emotions, and any unique elements you want to include. For example, instead of 'a cat', you might say 'a fluffy white cat lounging on a sunlit windowsill with a playful expression.'"

/-- The placeholder message shown when image generation starts. -/
def generating_message : String := "Generating image based on your prompt..."

/-- The orchestrator-side start of `generate_image(prompt)` (source lines
357-370): placeholder message, speech, controls disabled, worker spawned.
The tick-driven drain is modelled separately by `check_generation`. -/
def generate_image_start (s : AppState) (prompt : String) : AppState × List UIAction :=
  ({ s with
      chat_display := s.chat_display ++ ["Bot: " ++ generating_message],
      controlsEnabled := false },
   [.speakText generating_message, .spawnImageTask prompt])

/-- `send_chat` (source lines 252-317): strips the entry text, bails out on
empty input, records the user turn, then dispatches on the input: the
`generate image:` branch, the prompt-improvement branch, or a streaming
chat request. -/
def send_chat (s : AppState) (entryText : String) : AppState × List UIAction :=
  let user_input := pyStrip entryText
  if user_input = "" then (s, [])
  else
    let s1 := { s with memory := s.memory ++ [(user_input, "")] }
    let s2 := { s1 with chat_display := s1.chat_display ++ ["You: " ++ user_input] }
    let lowered := pyLower user_input
    if pyStartsWith "generate image:" lowered then
      let prompt := pyStrip ⟨user_input.data.drop 15⟩
      if prompt ≠ "" then
        let r := generate_image_start s2 prompt
        ({ r.1 with
            chat_display := r.1.chat_display ++ ["Bot: " ++ image_tip_message],
            memory := r.1.memory ++ [(user_input, image_tip_message)] },
         r.2 ++ [.speakText image_tip_message])
      else
        ({ s2 with
            chat_display := s2.chat_display ++ ["Bot: " ++ missing_prompt_message],
            memory := s2.memory ++ [(user_input, missing_prompt_message)] },
         [.speakText missing_prompt_message])
    else if pyContains "improve prompt" lowered || pyContains "refine prompt" lowered then
      ({ s2 with
          chat_display := s2.chat_display ++ ["Bot: " ++ improvement_message],
          memory := s2.memory ++ [(user_input, improvement_message)] },
       [.speakText improvement_message])
    else
      ({ s2 with chat_display := s2.chat_display ++ ["Bot:  "] },
       [.spawnChatTask user_input])

/-! ## Chat task orchestration trace (for the single-flight property)

`send_chat` spawns a `query_ollama` thread whose `handle_tokens` companion
drains the token queue until the terminal marker.  A trace interleaves
submissions with terminal-marker drains; `runningChat` counts chat
streaming tasks that have been spawned and have not yet drained their
terminal marker. -/

/-- Orchestrator-level state: presentation state plus the number of chat
streaming tasks currently running. -/
structure OrchState where
  app : AppState
  runningChat : Nat
  deriving DecidableEq

/-- An externally visible orchestration event: the user submits entry
text, or a running chat task's terminal marker is drained. -/
inductive OrchEvent where
  | submit (text : String)
  | chatTerminal
  deriving DecidableEq

/-- How many chat streaming tasks an action list spawns. -/
def chatSpawnCount (acts : List UIAction) : Nat :=
  acts.countP fun a => match a with | .spawnChatTask _ => true | _ => false

/-- One orchestration step. -/
def orch_step (s : OrchState) : OrchEvent → OrchState
  | .submit t =>
    let r := send_chat s.app t
    { app := r.1, runningChat := s.runningChat + chatSpawnCount r.2 }
  | .chatTerminal => { s with runningChat := s.runningChat - 1 }

/-- Run a sequence of orchestration events. -/
def orch_run (s : OrchState) (evs : List OrchEvent) : OrchState :=
  evs.foldl orch_step s

/-- Fresh session state. -/
def orchInit : OrchState :=
  { app := { memory := [], chat_display := [], controlsEnabled := true },
    runningChat := 0 }

/-! ## The `check_generation` drain loop (source lines 373-401)

`generate_image` schedules `check_generation` every 100 ms; each tick
non-blockingly drains the status queue, then the image queue; on a result
(even `None`) it re-enables the controls and stops rescheduling. -/

/-- State of the image-generation drain loop: the two queues, the controls
flag, a count of re-enable transitions (the triple of
`config(state=tk.NORMAL)` calls), and the chat display. -/
structure GenLoopState where
  status_queue : List String
  image_queue : List (Option String)
  controlsEnabled : Bool
  enableEvents : Nat
  chat_display : List String
  deriving DecidableEq

/-- The `status_queue.get_nowait` try-block of one tick. -/
def consume_status (s : GenLoopState) : GenLoopState :=
  match s.status_queue with
  | [] => s
  | m :: rest =>
    { s with status_queue := rest, chat_display := s.chat_display ++ ["Bot: " ++ m] }

/-- The bot message chosen from the drained image result. -/
def result_message : Option String → String
  | some _ => "You can save the image using the 'Options' menu."
  | none => "Failed to generate image."

/-- One `check_generation` tick: drain a status if present, then try the
image queue; on a result, post the message, re-enable the controls and
finish (`true`); on `queue.Empty`, reschedule (`false`). -/
def check_generation (s : GenLoopState) : GenLoopState × Bool :=
  let s1 := consume_status s
  match s1.image_queue with
  | [] => (s1, false)
  | v :: rest =>
    ({ s1 with
        image_queue := rest,
        chat_display := s1.chat_display ++ ["Bot: " ++ result_message v],
        controlsEnabled := true,
        enableEvents := s1.enableEvents + 1 },
     true)

/-- The rescheduling loop: each list element is what the background
`run_diffusionkit` thread pushed onto (status, image) queues since the
previous tick; the loop stops as soon as a tick drains a result. -/
def gen_loop (s : GenLoopState) : List (List String × List (Option String)) → GenLoopState
  | [] => s
  | (newStatus, newResults) :: rest =>
    let s0 := { s with
        status_queue := s.status_queue ++ newStatus,
        image_queue := s.image_queue ++ newResults }
    let r := check_generation s0
    if r.2 then r.1 else gen_loop r.1 rest

/-- Drain-loop state right after `generate_image` spawned the worker:
empty queues, controls just disabled, no re-enable yet. -/
def genLoopInit : GenLoopState :=
  { status_queue := [], image_queue := [], controlsEnabled := false,
    enableEvents := 0, chat_display := [] }

/-! ## `AudioController` (source lines 143-185)

`play_audio(file_path)` spawns a daemon thread whose whole body — the
currently-playing check and stop, `load`/`play`, the `get_busy` busy-wait,
`currently_playing = False`, and the file removal — runs inside
`with self.lock:`.  We model two such threads, A playing file `0` and B
playing file `1`, interleaved with the mixer finishing playback, as an
explicit small-step relation.  `activeStreams` is the multiset of streams
the mixer is currently playing (`load`+`play` adds one, `stop` clears,
natural completion removes one), so stream exclusivity is a property to
prove, not an assumption of the model. -/

/-- Observable audio events, in order of occurrence. -/
inductive AudioEvent where
  | stopCalled
  | started (file : Nat)
  | finished (file : Nat)
  | removed (file : Nat)
  deriving DecidableEq

/-- Program counter of one `play` thread body. -/
inductive PlayPC where
  | ready
  | critStop
  | critLoad
  | waiting
  | done
  deriving DecidableEq

/-- Whether a thread is inside the `with self.lock:` block. -/
def inCrit : PlayPC → Bool
  | .ready => false
  | .done => false
  | _ => true

/-- Joint state of the controller, the mixer and the two play threads.
`lockHolder = some false` means thread A holds `self.lock`, `some true`
thread B, `none` free. -/
structure AudioState where
  lockHolder : Option Bool
  pcA : PlayPC
  pcB : PlayPC
  currently_playing : Bool
  activeStreams : List Nat
  events : List AudioEvent
  deriving DecidableEq

/-- Both play threads spawned (play(a) then play(b) already called),
mixer idle. -/
def audioInit : AudioState :=
  { lockHolder := none, pcA := .ready, pcB := .ready,
    currently_playing := false, activeStreams := [], events := [] }

/-- Interleaved small steps of thread A (plays file 0), thread B (plays
file 1) and the mixer.  `failA`/`failB` select the `except` path of the
corresponding thread's `load`/`play` call. -/
inductive AudioStep (failA failB : Bool) : AudioState → AudioState → Prop where
  | acquireA {s : AudioState} (hl : s.lockHolder = none) (hpc : s.pcA = .ready) :
      AudioStep failA failB s { s with lockHolder := some false, pcA := .critStop }
  | stopHitA {s : AudioState} (hpc : s.pcA = .critStop) (hp : s.currently_playing = true) :
      AudioStep failA failB s
        { s with pcA := .critLoad, activeStreams := [],
                 events := s.events ++ [.stopCalled] }
  | stopMissA {s : AudioState} (hpc : s.pcA = .critStop) (hp : s.currently_playing = false) :
      AudioStep failA failB s { s with pcA := .critLoad }
  | loadOkA {s : AudioState} (hf : failA = false) (hpc : s.pcA = .critLoad) :
      AudioStep failA failB s
        { s with pcA := .waiting, currently_playing := true,
                 activeStreams := s.activeStreams ++ [0],
                 events := s.events ++ [.started 0] }
  | loadErrA {s : AudioState} (hf : failA = true) (hpc : s.pcA = .critLoad) :
      AudioStep failA failB s { s with pcA := .waiting, currently_playing := false }
  | cleanupA {s : AudioState} (hpc : s.pcA = .waiting) (hbusy : s.activeStreams = []) :
      AudioStep failA failB s
        { s with pcA := .done, currently_playing := false,
                 events := s.events ++ [.removed 0], lockHolder := none }
  | acquireB {s : AudioState} (hl : s.lockHolder = none) (hpc : s.pcB = .ready) :
      AudioStep failA failB s { s with lockHolder := some true, pcB := .critStop }
  | stopHitB {s : AudioState} (hpc : s.pcB = .critStop) (hp : s.currently_playing = true) :
      AudioStep failA failB s
        { s with pcB := .critLoad, activeStreams := [],
                 events := s.events ++ [.stopCalled] }
  | stopMissB {s : AudioState} (hpc : s.pcB = .critStop) (hp : s.currently_playing = false) :
      AudioStep failA failB s { s with pcB := .critLoad }
  | loadOkB {s : AudioState} (hf : failB = false) (hpc : s.pcB = .critLoad) :
      AudioStep failA failB s
        { s with pcB := .waiting, currently_playing := true,
                 activeStreams := s.activeStreams ++ [1],
                 events := s.events ++ [.started 1] }
  | loadErrB {s : AudioState} (hf : failB = true) (hpc : s.pcB = .critLoad) :
      AudioStep failA failB s { s with pcB := .waiting, currently_playing := false }
  | cleanupB {s : AudioState} (hpc : s.pcB = .waiting) (hbusy : s.activeStreams = []) :
      AudioStep failA failB s
        { s with pcB := .done, currently_playing := false,
                 events := s.events ++ [.removed 1], lockHolder := none }
  | finishStream {s : AudioState} (f : Nat) (rest : List Nat)
      (h : s.activeStreams = f :: rest) :
      AudioStep failA failB s
        { s with activeStreams := rest, events := s.events ++ [.finished f] }

/-- States reachable from `audioInit` by interleaved steps. -/
inductive AudioReach (failA failB : Bool) : AudioState → Prop where
  | init : AudioReach failA failB audioInit
  | step {s t : AudioState} :
      AudioReach failA failB s → AudioStep failA failB s t → AudioReach failA failB t

/-- Inductive invariant of the audio controller system. -/
structure AudioInv (s : AudioState) : Prop where
  lockA : inCrit s.pcA = true → s.lockHolder = some false
  lockB : inCrit s.pcB = true → s.lockHolder = some true
  freeQuiet : s.lockHolder = none → s.currently_playing = false ∧ s.activeStreams = []
  notPlayingEmpty : s.currently_playing = false → s.activeStreams = []
  quietStopA : s.pcA = .critStop → s.currently_playing = false
  quietStopB : s.pcB = .critStop → s.currently_playing = false
  emptyLoadA : s.pcA = .critLoad → s.activeStreams = []
  emptyLoadB : s.pcB = .critLoad → s.activeStreams = []
  oneStream : s.activeStreams.length ≤ 1
  noStop : AudioEvent.stopCalled ∉ s.events

/-! ## Helper lemmas -/

theorem terminalCount_streamPuts : ∀ ls : List StreamLine, terminalCount (streamPuts ls) = 1
  | [] => by simp [streamPuts, terminalCount]
  | .emptyLine :: rest => by
      simpa [streamPuts] using terminalCount_streamPuts rest
  | .jsonLine tok :: rest => by
      simpa [streamPuts, terminalCount, List.countP_cons] using terminalCount_streamPuts rest
  | .badLine :: _ => by simp [streamPuts, terminalCount]

theorem consume_status_image_queue (s : GenLoopState) :
    (consume_status s).image_queue = s.image_queue := by
  unfold consume_status; split <;> rfl

theorem consume_status_enableEvents (s : GenLoopState) :
    (consume_status s).enableEvents = s.enableEvents := by
  unfold consume_status; split <;> rfl

theorem digitChar_inj_below : ∀ a < 10, ∀ b < 10, Nat.digitChar a = Nat.digitChar b → a = b := by
  decide

theorem map_digitChar_inj : ∀ l1 l2 : List Nat, (∀ d ∈ l1, d < 10) → (∀ d ∈ l2, d < 10) →
    l1.map Nat.digitChar = l2.map Nat.digitChar → l1 = l2
  | [], [], _, _, _ => rfl
  | [], _ :: _, _, _, h => by simp at h
  | _ :: _, [], _, _, h => by simp at h
  | a :: l1, b :: l2, h1, h2, h => by
    simp only [List.map_cons, List.cons.injEq] at h
    have hab : a = b := digitChar_inj_below a (h1 a (by simp)) b (h2 b (by simp)) h.1
    have htl : l1 = l2 :=
      map_digitChar_inj l1 l2 (fun d hd => h1 d (by simp [hd]))
        (fun d hd => h2 d (by simp [hd])) h.2
    rw [hab, htl]

theorem natDecimal_inj (m n : Nat) (h : natDecimal m = natDecimal n) : m = n := by
  have digitsOf : ∀ k : Nat, k ≠ 0 →
      natDecimal k = ⟨((Nat.digits 10 k).map Nat.digitChar).reverse⟩ := by
    intro k hk; simp [natDecimal, hk]
  have zeroCase : ∀ k : Nat, k ≠ 0 → natDecimal k ≠ "0" := by
    intro k hk hcontra
    rw [digitsOf k hk] at hcontra
    have hdata : ((Nat.digits 10 k).map Nat.digitChar).reverse = ['0'] :=
      congrArg String.data hcontra
    have hmap : (Nat.digits 10 k).map Nat.digitChar = ['0'] := by
      have := congrArg List.reverse hdata
      simpa using this
    obtain ⟨d, hd⟩ : ∃ d, Nat.digits 10 k = [d] := by
      have hlen : ((Nat.digits 10 k).map Nat.digitChar).length = 1 := by rw [hmap]; rfl
      rw [List.length_map] at hlen
      exact List.length_eq_one.mp hlen
    have hdc : Nat.digitChar d = '0' := by
      rw [hd] at hmap; simpa using hmap
    have hdlt : d < 10 := Nat.digits_lt_base (by norm_num) (by rw [hd]; simp)
    have hd0 : d = 0 := digitChar_inj_below d hdlt 0 (by norm_num) (by rw [hdc]; rfl)
    have : k = 0 := by
      have := Nat.ofDigits_digits 10 k
      rw [hd, hd0] at this
      simpa [Nat.ofDigits] using this.symm
    exact hk this
  by_cases hm : m = 0 <;> by_cases hn : n = 0
  · rw [hm, hn]
  · exfalso
    apply zeroCase n hn
    rw [← h, hm]
    simp [natDecimal]
  · exfalso
    apply zeroCase m hm
    rw [h, hn]
    simp [natDecimal]
  · rw [digitsOf m hm, digitsOf n hn] at h
    have hdata := congrArg String.data h
    simp only at hdata
    have hrev := congrArg List.reverse hdata
    simp only [List.reverse_reverse] at hrev
    have hdig : Nat.digits 10 m = Nat.digits 10 n :=
      map_digitChar_inj _ _ (fun d hd => Nat.digits_lt_base (by norm_num) hd)
        (fun d hd => Nat.digits_lt_base (by norm_num) hd) hrev
    have := congrArg (Nat.ofDigits 10) hdig
    rwa [Nat.ofDigits_digits, Nat.ofDigits_digits] at this

/-! ## Claim theorems -/

/-- C3: every invocation of the chat streaming task pushes exactly one
terminal marker onto the token queue, for every backend behavior: normal
stream end, non-200 status, or a raised transport/decoding exception. -/
theorem query_ollama_exactly_one_terminal (h p : String) (o : PostOutcome) :
    terminalCount (query_ollama h p o).puts = 1 := by
  cases o with
  | raised => simp [query_ollama, terminalCount]
  | response status lines =>
    by_cases hs : status = 200
    · simp [query_ollama, hs, terminalCount_streamPuts]
    · simp [query_ollama, hs, terminalCount]

/-- C6: the full prompt sent to the language-model backend is the rendered
conversation context, then `"\nUser: "`, the user's prompt, and `"\nBot:"`,
in that order. -/
theorem query_ollama_full_prompt (h p : String) (o : PostOutcome) :
    (query_ollama h p o).payloadPrompt = h ++ "\nUser: " ++ p ++ "\nBot:" := by
  cases o with
  | raised => rfl
  | response status lines =>
    by_cases hs : status = 200 <;> simp [query_ollama, hs]

/-- C4: every invocation of the image generation task pushes exactly one
status and one result: a failure status with a `None` result on non-zero
exit or a raised exception, a success status with the synthesized output
path on zero exit. -/
theorem run_diffusionkit_one_status_one_result (cwd : String) (ts : Nat) (o : RunOutcome) :
    ((run_diffusionkit cwd ts o).status_puts.length = 1 ∧
     (run_diffusionkit cwd ts o).image_puts.length = 1) ∧
    (match o with
     | .raised msg =>
       (run_diffusionkit cwd ts o).image_puts = [none] ∧
       (run_diffusionkit cwd ts o).status_puts = ["Exception: " ++ msg]
     | .completed code err =>
       if code = 0 then
         (run_diffusionkit cwd ts o).image_puts = [some (output_path cwd ts)] ∧
         (run_diffusionkit cwd ts o).status_puts = ["Image generated successfully!"]
       else
         (run_diffusionkit cwd ts o).image_puts = [none] ∧
         (run_diffusionkit cwd ts o).status_puts = ["Error: " ++ pyStrip err]) := by
  cases o with
  | raised msg => exact ⟨⟨rfl, rfl⟩, rfl, rfl⟩
  | completed code err =>
    by_cases hc : code = 0
    · simp [run_diffusionkit, hc]
    · simp [run_diffusionkit, hc]

/-- C8 counterexample: two distinct image-generation invocations that
observe the same integral second (`int(time.time())` has one-second
resolution) synthesize the same output path. -/
theorem run_diffusionkit_same_second_collision :
    (⟨0, 1730000000⟩ : GenCall) ≠ (⟨1, 1730000000⟩ : GenCall) ∧
    genCallPath "/work" ⟨0, 1730000000⟩ = genCallPath "/work" ⟨1, 1730000000⟩ :=
  ⟨by decide, rfl⟩

/-- C8 amended: the time-based suffix distinguishes any two invocations
that observe distinct integral seconds. -/
theorem output_path_injective_on_time (cwd : String) (t1 t2 : Nat) (hne : t1 ≠ t2) :
    output_path cwd t1 ≠ output_path cwd t2 := by
  intro heq
  apply hne
  apply natDecimal_inj
  apply String.ext
  have hdata := congrArg String.data heq
  simp only [output_path, output_filename, String.data_append, List.append_assoc] at hdata
  have h1 := List.append_cancel_left hdata
  have h2 := List.append_cancel_left h1
  have h3 := List.append_cancel_left h2
  exact List.append_cancel_right h3

theorem output_path_injective_on_time_witness :
    output_path "/work" 1730000000 ≠ output_path "/work" 1730000001 :=
  output_path_injective_on_time "/work" 1730000000 1730000001 (by decide)

/-- C7 counterexample: on a decoder trace whose first end-of-utterance has
empty text, the code returns that empty text at once, while the specified
behavior (return at the first NON-empty end-of-utterance) would keep
listening and return the later non-empty one. -/
theorem recognize_speech_empty_utterance_counterexample :
    recognize_speech [.utterance "", .utterance "hi"] = some "" ∧
    recognize_speech_specModel [.utterance "", .utterance "hi"] = some "hi" := by
  constructor <;> decide

/-- C7 amended: the capture loop skips partial results and returns at the
FIRST accepted end-of-utterance, whatever its text (possibly empty); on any
I/O or decoder error it returns the empty string instead of raising. -/
theorem recognize_speech_first_boundary (pre rest : List SpeechEvent) (t : String)
    (hpre : ∀ x ∈ pre, x = SpeechEvent.interim) :
    recognize_speech (pre ++ SpeechEvent.utterance t :: rest) = some t ∧
    recognize_speech (pre ++ SpeechEvent.failure :: rest) = some "" := by
  induction pre with
  | nil => exact ⟨rfl, rfl⟩
  | cons x xs ih =>
    have hx : x = SpeechEvent.interim := hpre x (by simp)
    subst hx
    simpa [recognize_speech] using ih (fun y hy => hpre y (by simp [hy]))

theorem recognize_speech_first_boundary_witness :
    recognize_speech [SpeechEvent.interim, SpeechEvent.utterance "hello"] = some "hello" ∧
    recognize_speech [SpeechEvent.interim, SpeechEvent.failure] = some "" :=
  recognize_speech_first_boundary [SpeechEvent.interim] [] "hello" (by decide)

/-- C9: a chat submission whose text strips to the empty string is a
complete no-op: state (memory, display, controls) unchanged and no
background task spawned. -/
theorem send_chat_empty_input_noop (s : AppState) (t : String) (h : pyStrip t = "") :
    send_chat s t = (s, []) := by
  simp [send_chat, h]

theorem send_chat_empty_input_noop_witness :
    send_chat { memory := [], chat_display := [], controlsEnabled := true } "  \t\n " =
      ({ memory := [], chat_display := [], controlsEnabled := true }, []) :=
  send_chat_empty_input_noop _ _ (by decide)

/-- C10 counterexample: the input `"generate image: improve prompt"`
contains `"improve prompt"`, yet it is routed to the earlier
`generate image:` branch: an image task is spawned and the canned
improvement message is never produced. -/
theorem send_chat_improve_inside_image_command :
    pyContains "improve prompt" (pyLower (pyStrip "generate image: improve prompt")) = true ∧
    (send_chat { memory := [], chat_display := [], controlsEnabled := true }
        "generate image: improve prompt").2 =
      [.speakText generating_message, .spawnImageTask "improve prompt",
       .speakText image_tip_message] ∧
    ("Bot: " ++ improvement_message) ∉
      (send_chat { memory := [], chat_display := [], controlsEnabled := true }
        "generate image: improve prompt").1.chat_display := by
  refine ⟨by decide, by decide, by decide⟩

/-- C10 amended: a chat submission that contains `"improve prompt"` or
`"refine prompt"` (case-insensitively) AND does not start with
`generate image:` is answered with the canned improvement message, appended
to memory locally, with no background task spawned and the backend never
contacted. -/
theorem send_chat_improve_prompt (s : AppState) (t : String)
    (h1 : ¬ pyStrip t = "")
    (h2 : pyStartsWith "generate image:" (pyLower (pyStrip t)) = false)
    (h3 : (pyContains "improve prompt" (pyLower (pyStrip t)) ||
           pyContains "refine prompt" (pyLower (pyStrip t))) = true) :
    send_chat s t =
      ({ s with
          memory := s.memory ++ [(pyStrip t, ""), (pyStrip t, improvement_message)],
          chat_display := s.chat_display ++
            ["You: " ++ pyStrip t, "Bot: " ++ improvement_message] },
       [.speakText improvement_message]) := by
  simp [send_chat, h1, h2, h3]

theorem send_chat_improve_prompt_witness :
    send_chat { memory := [], chat_display := [], controlsEnabled := true }
        "please improve prompt" =
      ({ memory := [("please improve prompt", ""),
                    ("please improve prompt", improvement_message)],
         chat_display := ["You: please improve prompt",
                          "Bot: " ++ improvement_message],
         controlsEnabled := true },
       [.speakText improvement_message]) :=
  send_chat_improve_prompt _ _ (by decide) (by decide) (by decide)

/-- C1 counterexample: two plain chat submissions with no intervening
terminal-marker drain leave two chat streaming tasks running at once —
the second submission is neither rejected nor queued. -/
theorem chat_single_flight_counterexample :
    ¬ (orch_run orchInit [.submit "Hello", .submit "How are you"]).runningChat ≤ 1 := by
  decide

/-- C1 amended: `send_chat` enforces no single-flight for chat: every
plain chat submission (non-empty, not an image command, not a
prompt-improvement request) spawns a fresh chat streaming task regardless
of how many are already running, so a submission mid-stream yields two
concurrent tasks. -/
theorem submit_always_spawns (s : OrchState) (t : String)
    (h1 : ¬ pyStrip t = "")
    (h2 : pyStartsWith "generate image:" (pyLower (pyStrip t)) = false)
    (h3 : pyContains "improve prompt" (pyLower (pyStrip t)) = false)
    (h4 : pyContains "refine prompt" (pyLower (pyStrip t)) = false) :
    (orch_step s (.submit t)).runningChat = s.runningChat + 1 := by
  simp [orch_step, send_chat, h1, h2, h3, h4, chatSpawnCount]

theorem submit_always_spawns_witness :
    (orch_step { app := { memory := [], chat_display := [], controlsEnabled := true },
                 runningChat := 1 } (.submit "Hello")).runningChat = 1 + 1 :=
  submit_always_spawns _ _ (by decide) (by decide) (by decide) (by decide)

theorem gen_loop_enable_aux (arrivals : List (List String × List (Option String))) :
    ∀ s : GenLoopState, s.image_queue = [] → s.enableEvents = 0 →
    (∃ a ∈ arrivals, a.2 ≠ []) →
    (gen_loop s arrivals).enableEvents = 1 ∧ (gen_loop s arrivals).controlsEnabled = true := by
  induction arrivals with
  | nil => rintro s _ _ ⟨a, ha, _⟩; simp at ha
  | cons hd tl ih =>
    rintro s hq he ⟨a, ha, hne⟩
    obtain ⟨st, res⟩ := hd
    rw [gen_loop]
    cases res with
    | nil =>
      rw [check_generation]
      simp only [consume_status_image_queue, hq, List.append_nil]
      apply ih
      · exact (consume_status_image_queue _).trans (by simp [hq])
      · exact (consume_status_enableEvents _).trans he
      · rcases List.mem_cons.mp ha with rfl | hmem
        · exact absurd rfl hne
        · exact ⟨a, hmem, hne⟩
    | cons v vrest =>
      rw [check_generation]
      simp only [consume_status_image_queue, hq, List.nil_append]
      simp [consume_status_enableEvents, he]

/-- C5: `generate_image` disables the prompt-submission controls at start,
and the `check_generation` drain loop re-enables them exactly once, on the
first tick that drains the result queue — including when generation failed
and the drained result is `None`. -/
theorem generate_image_reenables_once (s0 : AppState) (p : String)
    (arrivals : List (List String × List (Option String)))
    (harr : ∃ a ∈ arrivals, a.2 ≠ []) :
    (generate_image_start s0 p).1.controlsEnabled = false ∧
    (gen_loop genLoopInit arrivals).enableEvents = 1 ∧
    (gen_loop genLoopInit arrivals).controlsEnabled = true := by
  have h := gen_loop_enable_aux arrivals genLoopInit rfl rfl harr
  exact ⟨rfl, h.1, h.2⟩

theorem generate_image_reenables_once_witness :
    (generate_image_start { memory := [], chat_display := [], controlsEnabled := true }
        "a red balloon").1.controlsEnabled = false ∧
    (gen_loop genLoopInit [(["Error: boom"], [(none : Option String)])]).enableEvents = 1 ∧
    (gen_loop genLoopInit [(["Error: boom"], [(none : Option String)])]).controlsEnabled = true :=
  generate_image_reenables_once _ _ _ ⟨(["Error: boom"], [none]), by simp, by simp⟩

theorem audio_inv {fA fB : Bool} {s : AudioState} (h : AudioReach fA fB s) : AudioInv s := by
  induction h with
  | init =>
    exact ⟨by decide, by decide, by decide, by decide, by decide,
           by decide, by decide, by decide, by decide, by decide⟩
  | step hr hstep ih =>
    rename_i u t
    cases hstep with
    | acquireA hl hpc =>
      refine ⟨fun _ => rfl, ?_, ?_, ih.notPlayingEmpty, fun _ => (ih.freeQuiet hl).1,
              ih.quietStopB, ?_, ih.emptyLoadB, ih.oneStream, ih.noStop⟩
      · intro hB
        have hx := ih.lockB hB
        rw [hl] at hx
        exact absurd hx (by decide)
      · intro hfree
        exact absurd (show (some false : Option Bool) = none from hfree) (by decide)
      · intro hx
        exact absurd (show PlayPC.critStop = PlayPC.critLoad from hx) (by decide)
    | stopHitA hpc hp =>
      exact absurd (ih.quietStopA hpc) (by simp [hp])
    | stopMissA hpc hp =>
      refine ⟨?_, ih.lockB, ih.freeQuiet, ih.notPlayingEmpty, ?_, ih.quietStopB,
              fun _ => ih.notPlayingEmpty hp, ih.emptyLoadB, ih.oneStream, ih.noStop⟩
      · intro _
        exact ih.lockA (by rw [hpc]; rfl)
      · intro hx
        exact absurd (show PlayPC.critLoad = PlayPC.critStop from hx) (by decide)
    | loadOkA hf hpc =>
      have hlock : u.lockHolder = some false := ih.lockA (by rw [hpc]; rfl)
      have hempty : u.activeStreams = [] := ih.emptyLoadA hpc
      refine ⟨fun _ => hlock, ih.lockB, ?_, ?_, ?_, ?_, ?_, ?_, ?_, ?_⟩
      · intro hfree
        have hfree2 : u.lockHolder = none := hfree
        rw [hfree2] at hlock
        exact absurd hlock (by decide)
      · intro hx
        exact absurd (show true = false from hx) (by decide)
      · intro hx
        exact absurd (show PlayPC.waiting = PlayPC.critStop from hx) (by decide)
      · intro hB
        have hB2 : u.pcB = PlayPC.critStop := hB
        have h1 := ih.lockB (by rw [hB2]; rfl)
        rw [hlock] at h1
        exact absurd h1 (by decide)
      · intro hx
        exact absurd (show PlayPC.waiting = PlayPC.critLoad from hx) (by decide)
      · intro hB
        have hB2 : u.pcB = PlayPC.critLoad := hB
        have h1 := ih.lockB (by rw [hB2]; rfl)
        rw [hlock] at h1
        exact absurd h1 (by decide)
      · simp [hempty]
      · simp [ih.noStop]
    | loadErrA hf hpc =>
      have hlock : u.lockHolder = some false := ih.lockA (by rw [hpc]; rfl)
      have hempty : u.activeStreams = [] := ih.emptyLoadA hpc
      refine ⟨fun _ => hlock, ih.lockB, ?_, fun _ => hempty, ?_, fun _ => rfl,
              ?_, ih.emptyLoadB, ih.oneStream, ih.noStop⟩
      · intro hfree
        have hfree2 : u.lockHolder = none := hfree
        rw [hfree2] at hlock
        exact absurd hlock (by decide)
      · intro hx
        exact absurd (show PlayPC.waiting = PlayPC.critStop from hx) (by decide)
      · intro hx
        exact absurd (show PlayPC.waiting = PlayPC.critLoad from hx) (by decide)
    | cleanupA hpc hbusy =>
      have hlock : u.lockHolder = some false := ih.lockA (by rw [hpc]; rfl)
      refine ⟨?_, ?_, fun _ => ⟨rfl, hbusy⟩, fun _ => hbusy, ?_, fun _ => rfl,
              ?_, fun _ => hbusy, ih.oneStream, ?_⟩
      · intro hx
        exact absurd (show inCrit PlayPC.done = true from hx) (by decide)
      · intro hB
        have h1 := ih.lockB hB
        rw [hlock] at h1
        exact absurd h1 (by decide)
      · intro hx
        exact absurd (show PlayPC.done = PlayPC.critStop from hx) (by decide)
      · intro hx
        exact absurd (show PlayPC.done = PlayPC.critLoad from hx) (by decide)
      · simp [ih.noStop]
    | acquireB hl hpc =>
      refine ⟨?_, fun _ => rfl, ?_, ih.notPlayingEmpty, ih.quietStopA,
              fun _ => (ih.freeQuiet hl).1, ih.emptyLoadA, ?_, ih.oneStream, ih.noStop⟩
      · intro hA
        have hx := ih.lockA hA
        rw [hl] at hx
        exact absurd hx (by decide)
      · intro hfree
        exact absurd (show (some true : Option Bool) = none from hfree) (by decide)
      · intro hx
        exact absurd (show PlayPC.critStop = PlayPC.critLoad from hx) (by decide)
    | stopHitB hpc hp =>
      exact absurd (ih.quietStopB hpc) (by simp [hp])
    | stopMissB hpc hp =>
      refine ⟨ih.lockA, ?_, ih.freeQuiet, ih.notPlayingEmpty, ih.quietStopA, ?_,
              ih.emptyLoadA, fun _ => ih.notPlayingEmpty hp, ih.oneStream, ih.noStop⟩
      · intro _
        exact ih.lockB (by rw [hpc]; rfl)
      · intro hx
        exact absurd (show PlayPC.critLoad = PlayPC.critStop from hx) (by decide)
    | loadOkB hf hpc =>
      have hlock : u.lockHolder = some true := ih.lockB (by rw [hpc]; rfl)
      have hempty : u.activeStreams = [] := ih.emptyLoadB hpc
      refine ⟨ih.lockA, fun _ => hlock, ?_, ?_, ?_, ?_, ?_, ?_, ?_, ?_⟩
      · intro hfree
        have hfree2 : u.lockHolder = none := hfree
        rw [hfree2] at hlock
        exact absurd hlock (by decide)
      · intro hx
        exact absurd (show true = false from hx) (by decide)
      · intro hA
        have hA2 : u.pcA = PlayPC.critStop := hA
        have h1 := ih.lockA (by rw [hA2]; rfl)
        rw [hlock] at h1
        exact absurd h1 (by decide)
      · intro hx
        exact absurd (show PlayPC.waiting = PlayPC.critStop from hx) (by decide)
      · intro hA
        have hA2 : u.pcA = PlayPC.critLoad := hA
        have h1 := ih.lockA (by rw [hA2]; rfl)
        rw [hlock] at h1
        exact absurd h1 (by decide)
      · intro hx
        exact absurd (show PlayPC.waiting = PlayPC.critLoad from hx) (by decide)
      · simp [hempty]
      · simp [ih.noStop]
    | loadErrB hf hpc =>
      have hlock : u.lockHolder = some true := ih.lockB (by rw [hpc]; rfl)
      have hempty : u.activeStreams = [] := ih.emptyLoadB hpc
      refine ⟨ih.lockA, fun _ => hlock, ?_, fun _ => hempty, fun _ => rfl, ?_,
              ih.emptyLoadA, ?_, ih.oneStream, ih.noStop⟩
      · intro hfree
        have hfree2 : u.lockHolder = none := hfree
        rw [hfree2] at hlock
        exact absurd hlock (by decide)
      · intro hx
        exact absurd (show PlayPC.waiting = PlayPC.critStop from hx) (by decide)
      · intro hx
        exact absurd (show PlayPC.waiting = PlayPC.critLoad from hx) (by decide)
    | cleanupB hpc hbusy =>
      have hlock : u.lockHolder = some true := ih.lockB (by rw [hpc]; rfl)
      refine ⟨?_, ?_, fun _ => ⟨rfl, hbusy⟩, fun _ => hbusy, fun _ => rfl, ?_,
              fun _ => hbusy, ?_, ih.oneStream, ?_⟩
      · intro hA
        have h1 := ih.lockA hA
        rw [hlock] at h1
        exact absurd h1 (by decide)
      · intro hx
        exact absurd (show inCrit PlayPC.done = true from hx) (by decide)
      · intro hx
        exact absurd (show PlayPC.done = PlayPC.critStop from hx) (by decide)
      · intro hx
        exact absurd (show PlayPC.done = PlayPC.critLoad from hx) (by decide)
      · simp [ih.noStop]
    | finishStream f rest hstr =>
      have hlen : rest.length ≤ 1 := by
        have h1 := ih.oneStream
        rw [hstr] at h1
        simp only [List.length_cons] at h1
        omega
      refine ⟨ih.lockA, ih.lockB, ?_, ?_, ih.quietStopA, ih.quietStopB, ?_, ?_, hlen, ?_⟩
      · intro hfree
        have hfree2 : u.lockHolder = none := hfree
        have h2 := (ih.freeQuiet hfree2).2
        rw [hstr] at h2
        exact absurd h2 (by simp)
      · intro hp
        have hp2 : u.currently_playing = false := hp
        have h2 := ih.notPlayingEmpty hp2
        rw [hstr] at h2
        exact absurd h2 (by simp)
      · intro hL
        have hL2 : u.pcA = PlayPC.critLoad := hL
        have h2 := ih.emptyLoadA hL2
        rw [hstr] at h2
        exact absurd h2 (by simp)
      · intro hL
        have hL2 : u.pcB = PlayPC.critLoad := hL
        have h2 := ih.emptyLoadB hL2
        rw [hstr] at h2
        exact absurd h2 (by simp)
      · simp [ih.noStop]

theorem play_audio_exclusive {fA fB : Bool} {s : AudioState} (h : AudioReach fA fB s) :
    s.activeStreams.length ≤ 1 ∧ AudioEvent.stopCalled ∉ s.events :=
  ⟨(audio_inv h).oneStream, (audio_inv h).noStop⟩

/-- C2: a full run in which `play(b)` is pending while `a`'s stream is
active: `a` is never stopped — it plays to natural completion and is
removed, and only then does `b` load and start.  No `stop` call occurs in
the whole run. -/
theorem play_audio_second_call_waits :
    ∃ s : AudioState, AudioReach false false s ∧
      s.events = [.started 0, .finished 0, .removed 0, .started 1, .finished 1, .removed 1] ∧
      AudioEvent.stopCalled ∉ s.events := by
  have htrace := AudioReach.step (AudioReach.step (AudioReach.step (AudioReach.step
    (AudioReach.step (AudioReach.step (AudioReach.step (AudioReach.step (AudioReach.step
      (AudioReach.step (@AudioReach.init false false)
      (AudioStep.acquireA rfl rfl))
      (AudioStep.stopMissA rfl rfl))
      (AudioStep.loadOkA rfl rfl))
      (AudioStep.finishStream 0 [] rfl))
      (AudioStep.cleanupA rfl rfl))
      (AudioStep.acquireB rfl rfl))
      (AudioStep.stopMissB rfl rfl))
      (AudioStep.loadOkB rfl rfl))
      (AudioStep.finishStream 1 [] rfl))
      (AudioStep.cleanupB rfl rfl)
  exact ⟨_, htrace, rfl, by decide⟩

end Cithia
